import Mathlib

/-!
Verification of the model-downloader subsystem of nix-comfyui
(`src/custom_nodes/model_downloader/model_downloader_patch.py`).

The Python module keeps a global dictionary `active_downloads` mapping a
download id to a mutable progress record, fills it at intake
(`download_model`), mutates it from the background task
(`download_file` and its helpers), and answers queries
(`get_download_progress`, `list_downloads`).  The embedding below models
the registry as an association list, each handler as a pure function on
it, and the background task as a function of an `Env` that fixes what the
outside world (filesystem, HEAD response, GET response, clock) answers.
Floating-point quantities (`speed`, the wall-clock) are modelled over
`Nat` with floor division; no claim depends on their values.
-/

namespace ModelDownloader

/-- Decimal digits of a natural number, as Python's `str(int)` / f-string
formatting produces them.  `fuel` bounds the recursion; `fuel = n + 1`
always suffices. -/
def natToDecCore : Nat → Nat → List Char
  | 0, _ => []
  | f + 1, n =>
    if n < 10 then [Char.ofNat (48 + n)]
    else natToDecCore f (n / 10) ++ [Char.ofNat (48 + n % 10)]

/-- Python's decimal rendering of a non-negative integer. -/
def natToDec (n : Nat) : String := ⟨natToDecCore (n + 1) n⟩

/-- Reads a digit string back; inverse of `natToDec` on its image. -/
def decodeDec (l : List Char) : Nat := l.foldl (fun a c => 10 * a + (c.toNat - 48)) 0

/-- Status values stored in a record's `status` field. -/
inductive DlStatus
  | downloading
  | completed
  | error
deriving DecidableEq

/-- One entry of `active_downloads`: the dictionary built in
`download_model` plus the optional keys added later. -/
structure DownloadData where
  url : String
  folder : String
  filename : String
  path : String
  total_size : Nat
  downloaded : Nat
  percent : Nat
  status : DlStatus
  error : Option String
  start_time : Nat
  download_id : String
  end_time : Option Nat := none
  content_type : Option String := none
  speed : Option Nat := none
  eta : Option Nat := none
deriving DecidableEq

/-- The global `active_downloads` dictionary, as an association list in
which the most recent binding of a key shadows older ones. -/
abbrev Registry := List (String × DownloadData)

/-- Dictionary lookup `active_downloads.get(k)`. -/
def regFind (reg : Registry) (k : String) : Option DownloadData :=
  (reg.find? (fun p => p.1 == k)).map (·.2)

/-- Dictionary insert `active_downloads[k] = v`. -/
def regInsert (reg : Registry) (k : String) (v : DownloadData) : Registry :=
  (k, v) :: reg

/-- The guarded in-place mutation pattern
`if k in active_downloads: active_downloads[k].field = ...`:
a no-op when the key is absent. -/
def regUpdate (reg : Registry) (k : String) (f : DownloadData → DownloadData) : Registry :=
  match regFind reg k with
  | none => reg
  | some d => (k, f d) :: reg

/-- Dictionary removal `active_downloads.pop(k, None)`. -/
def regErase (reg : Registry) (k : String) : Registry :=
  reg.filter (fun p => !(p.1 == k))

/-- Python truthiness of an optional string: `None` and `""` are falsy. -/
def truthy : Option String → Bool
  | none => false
  | some s => !s.isEmpty

/-- `os.path.basename` for POSIX paths: the part after the last slash. -/
def os_basename (p : String) : String :=
  ⟨(p.data.reverse.takeWhile (fun c => !(c == '/'))).reverse⟩

/-- `os.path.dirname` for POSIX paths: everything up to the last slash,
with trailing slashes stripped unless the result is all slashes. -/
def os_dirname (p : String) : String :=
  let head := (p.data.reverse.dropWhile (fun c => !(c == '/'))).reverse
  if head.all (fun c => c == '/') then ⟨head⟩
  else ⟨(head.reverse.dropWhile (fun c => c == '/')).reverse⟩

/-- Two-argument `os.path.join` for POSIX paths: the second component
replaces the first when absolute, otherwise a single separator is
inserted unless the first is empty or already ends in a slash. -/
def os_join (a b : String) : String :=
  if b.data.head? = some '/' then b
  else if a.data = [] ∨ a.data.getLast? = some '/' then a ++ b
  else a ++ "/" ++ b

/-- `os.path.splitext` on a basename: split at the last dot, unless every
character before that dot is itself a dot (leading dots do not start an
extension).  The two parts always concatenate back to the input. -/
def splitext (name : String) : String × String :=
  let r := name.data.reverse
  match r.dropWhile (fun c => !(c == '.')) with
  | [] => (name, "")
  | c :: rest =>
    if rest.all (fun c => c == '.') then (name, "")
    else (⟨rest.reverse⟩, ⟨c :: (r.takeWhile (fun c => !(c == '.'))).reverse⟩)

/-- Outcome of the HEAD size-discovery request in `_fetch_content_length`:
either the request raised (`OSError` / `TimeoutError`), or it returned a
status together with the optional parsed `content-length` header and the
`content-type` header. -/
inductive HeadResult
  | failed
  | resp (status : Nat) (content_length : Option Nat) (content_type : String)

/-- The streaming GET response consumed by `_download_with_progress`:
status line, headers, and the sizes of the chunks `iter_chunked` yields. -/
structure GetResponse where
  status : Nat
  reason : String
  content_length : Option Nat
  content_type : String
  chunks : List Nat

/-- Everything `download_file` observes from the outside world:
`os.path.exists`, whether `os.makedirs` raises, the HEAD and GET
responses, and the integer clock readings (`int(time.time())`). -/
structure Env where
  file_exists : String → Bool
  mkdir_fails : Bool
  mkdir_err : String
  t_prep : Nat
  head : HeadResult
  get : GetResponse
  clock : Nat → Nat
  stream_start : Nat
  t_end : Nat

/-- The JSON envelope `download_model` returns: `success: true` with a
download id, acknowledgement status and message, or `success: false`
with an error string. -/
inductive IntakeResponse
  | queued (download_id status message : String)
  | failure (error : String)
deriving DecidableEq

/-- The download id of a successful intake acknowledgement. -/
def IntakeResponse.idOf : IntakeResponse → Option String
  | .queued i _ _ => some i
  | .failure _ => none

/-- The id `download_model` generates: the folder, the filename, and the
integer-second time joined by underscores. -/
def download_id_for (folder filename : String) (t : Nat) : String :=
  folder ++ "_" ++ filename ++ "_" ++ natToDec t

/-- Result of the intake handler: the HTTP response, the registry after
the handler ran, and the argument triple of the spawned
`_start_download` task, when one was created. -/
structure IntakeResult where
  response : IntakeResponse
  reg : Registry
  task : Option (String × String × String)

/-- The intake handler `download_model`, after request parsing: checks the
three required fields for truthiness, resolves the folder through
`folder_paths.get_folder_paths`, creates the record, and spawns the
background task. -/
def download_model (get_folder_paths : String → List String)
    (url folder filename : Option String) (now : Nat) (reg : Registry) : IntakeResult :=
  if !(truthy url && truthy folder && truthy filename) then
    ⟨.failure "Missing required parameters", reg, none⟩
  else
    let u := url.getD ""
    let f := folder.getD ""
    let n := filename.getD ""
    match get_folder_paths f with
    | [] => ⟨.failure ("Invalid folder: " ++ f), reg, none⟩
    | base :: _ =>
      let full_path := os_join base n
      let download_id := download_id_for f n now
      let entry : DownloadData :=
        { url := u, folder := f, filename := n, path := full_path,
          total_size := 0, downloaded := 0, percent := 0, status := .downloading,
          error := none, start_time := now, download_id := download_id }
      ⟨.queued download_id "queued" "Download has been queued and will start automatically",
        regInsert reg download_id entry, some (download_id, u, full_path)⟩

/-- `_prepare_download_path`: ensure the target directory exists (an
`OSError` from `os.makedirs` puts the record into the error state and
returns `None`), and disambiguate an already-occupied destination by
inserting the current integer time into the basename before the
extension, updating the record's `path` and `filename`. -/
def _prepare_download_path (env : Env) (download_id full_path : String)
    (reg : Registry) : Option String × Registry :=
  let target_directory := os_dirname full_path
  if !(env.file_exists target_directory) && env.mkdir_fails then
    (none, regUpdate reg download_id (fun d =>
      { d with status := .error,
               error := some ("Failed to create directory: " ++ env.mkdir_err) }))
  else if env.file_exists full_path then
    let parts := splitext (os_basename full_path)
    let timestamped_filename := parts.1 ++ "_" ++ natToDec env.t_prep ++ parts.2
    let full_path' := os_join target_directory timestamped_filename
    (some full_path', regUpdate reg download_id (fun d =>
      { d with path := full_path', filename := timestamped_filename }))
  else (some full_path, reg)

/-- `_fetch_content_length`: HEAD the source URL; on a 200 with a
`content-length` header record `total_size` and `content_type`; every
failure (exception, other status, missing header) is swallowed. -/
def _fetch_content_length (h : HeadResult) (download_id : String) (reg : Registry) : Registry :=
  match h with
  | .failed => reg
  | .resp status content_length content_type =>
    if status = 200 then
      match content_length with
      | some n => regUpdate reg download_id (fun d =>
          { d with total_size := n, content_type := some content_type })
      | none => reg
    else reg

/-- `_get_or_update_total_size`: take `total_size` from the record when
known, otherwise recover it (and `content_type`) from the GET response
headers; returns the size the streaming loop will use. -/
def _get_or_update_total_size (download_id : String) (resp_content_length : Option Nat)
    (resp_content_type : String) (reg : Registry) : Nat × Registry :=
  let total_size :=
    match regFind reg download_id with
    | some d => d.total_size
    | none => 0
  if total_size = 0 then
    match resp_content_length with
    | some n =>
      (n, regUpdate reg download_id (fun d =>
        { d with total_size := n, content_type := some resp_content_type }))
    | none => (0, reg)
  else (total_size, reg)

/-- The per-record effect of `_update_download_progress`: store the byte
count, recompute `percent` when the total is known, and recompute
`speed`/`eta` once bytes and wall time have accumulated.  `speed` is kept
in bytes per second (the Python code stores MB/s as a float; the `eta`
formula divides bytes remaining by bytes per second in both). -/
def progressedRecord (downloaded total_size now start_time : Nat)
    (d : DownloadData) : DownloadData :=
  let d := { d with downloaded := downloaded }
  let d := if 0 < total_size then { d with percent := downloaded * 100 / total_size } else d
  let time_elapsed := now - start_time
  if 0 < downloaded ∧ 0 < time_elapsed then
    let spd := downloaded / time_elapsed
    let d := { d with speed := some spd }
    if 0 < total_size ∧ 0 < spd then
      { d with eta := some ((total_size - downloaded) / spd) }
    else d
  else d

/-- `_update_download_progress`: guarded mutation of the record's
progress fields. -/
def _update_download_progress (download_id : String) (downloaded total_size now start_time : Nat)
    (reg : Registry) : Registry :=
  regUpdate reg download_id (progressedRecord downloaded total_size now start_time)

/-- The per-record effect of `_finalize_download`. -/
def finalizedRecord (downloaded total_size t_end : Nat) (d : DownloadData) : DownloadData :=
  { d with status := .completed, end_time := some t_end, downloaded := downloaded,
           percent := if 0 < total_size then 100 else 0 }

/-- `_finalize_download`: mark the record completed. -/
def _finalize_download (download_id : String) (downloaded total_size t_end : Nat)
    (reg : Registry) : Registry :=
  regUpdate reg download_id (finalizedRecord downloaded total_size t_end)

/-- The chunk loop of `_download_with_progress`, as the list of
`(downloaded, registry)` states after each processed chunk.  An empty
chunk ends the loop; each non-empty chunk is appended to the file, added
to the byte count, and pushed into the record.  `clock i` is the wall
time observed while processing the `i`-th chunk. -/
def streamTrace (download_id : String) (total_size : Nat) (clock : Nat → Nat)
    (start_time : Nat) : List Nat → Nat → Nat → Registry → List (Nat × Registry)
  | [], _, _, _ => []
  | c :: rest, downloaded, i, reg =>
    if c = 0 then []
    else
      let downloaded' := downloaded + c
      let reg' := _update_download_progress download_id downloaded' total_size
        (clock i) start_time reg
      (downloaded', reg') ::
        streamTrace download_id total_size clock start_time rest downloaded' (i + 1) reg'

/-- Final `(downloaded, registry)` state of the chunk loop. -/
def streamRun (download_id : String) (total_size : Nat) (clock : Nat → Nat) (start_time : Nat)
    (chunks : List Nat) (downloaded i : Nat) (reg : Registry) : Nat × Registry :=
  (streamTrace download_id total_size clock start_time chunks downloaded i reg).getLastD
    (downloaded, reg)

/-- `_download_with_progress`: raise `OSError` unless the GET status is
exactly 200, otherwise settle the total size, stream the chunks into the
file at `full_path`, and finalize.  On success it returns the registry,
the byte count, and the path the file was opened at. -/
def _download_with_progress (get : GetResponse) (clock : Nat → Nat)
    (stream_start t_end : Nat) (download_id full_path : String)
    (reg : Registry) : Except String (Registry × Nat × String) :=
  if get.status ≠ 200 then
    .error ("HTTP error " ++ natToDec get.status ++ ": " ++ get.reason)
  else
    let tr := _get_or_update_total_size download_id get.content_length get.content_type reg
    let sr := streamRun download_id tr.1 clock stream_start get.chunks 0 0 tr.2
    .ok (_finalize_download download_id sr.1 tr.1 t_end sr.2, sr.1, full_path)

/-- Result of one run of the `download_file` task: the registry at the
terminal transition, whether the 60-second retention pop is scheduled
(the success path sleeps 60 seconds and then removes the entry; the
error handler does not), and the path the destination file was opened
at, when streaming began. -/
structure RunOutcome where
  reg : Registry
  purge : Bool
  written_path : Option String
deriving DecidableEq

/-- `download_file`: prepare the destination (stopping on a directory
error), HEAD for the size, stream with progress, then either sleep out
the retention window and pop the entry, or — when streaming raised — put
the record into the error state with the fixed message
`"Download failed"`. -/
def download_file (env : Env) (download_id url full_path : String)
    (reg : Registry) : RunOutcome :=
  match _prepare_download_path env download_id full_path reg with
  | (none, reg1) => ⟨reg1, false, none⟩
  | (some prepared, reg1) =>
    let reg2 := _fetch_content_length env.head download_id reg1
    match _download_with_progress env.get env.clock env.stream_start env.t_end
        download_id prepared reg2 with
    | .ok (reg3, _, opened) => ⟨reg3, true, some opened⟩
    | .error _ =>
      ⟨regUpdate reg2 download_id (fun d =>
        { d with status := .error, error := some "Download failed",
                 end_time := some env.t_end }), false, none⟩

/-- The registry once the retention window has elapsed past the terminal
transition: the success path's `asyncio.sleep(60)` has run out and the
entry has been popped; any other path left the registry as it was. -/
def registryAfterWindow (o : RunOutcome) (download_id : String) : Registry :=
  if o.purge then regErase o.reg download_id else o.reg

/-- The JSON envelope of the progress and listing queries. -/
inductive ProgressResponse
  | found (d : DownloadData)
  | notFound
deriving DecidableEq

/-- `get_download_progress`: answer the record snapshot when the id is
truthy and present, else the not-found error. -/
def get_download_progress (reg : Registry) (download_id : Option String) : ProgressResponse :=
  if truthy download_id then
    match regFind reg (download_id.getD "") with
    | some d => .found d
    | none => .notFound
  else .notFound

/-- `list_downloads`: a snapshot of the whole registry. -/
def list_downloads (reg : Registry) : Registry := reg

/-- Whether the size-discovery step failed in any of the ways
`_fetch_content_length` swallows: exception, non-200 status, or missing
`content-length` header. -/
def headFailed : HeadResult → Bool
  | .failed => true
  | .resp status content_length _ => !(status == 200) || content_length.isNone

/-- Whether `_download_with_progress` returned instead of raising. -/
def exceptIsOk : Except String (Registry × Nat × String) → Bool
  | .ok _ => true
  | .error _ => false

/-- The disambiguated filename `_prepare_download_path` builds when the
destination exists: the current time inserted into the basename before
the extension. -/
def timestamped_name (p : String) (t : Nat) : String :=
  (splitext (os_basename p)).1 ++ "_" ++ natToDec t ++ (splitext (os_basename p)).2

/-- The disambiguated full path `_prepare_download_path` builds. -/
def renamed_path (p : String) (t : Nat) : String :=
  os_join (os_dirname p) (timestamped_name p t)

/-- Monotonicity of one registry observation step for a given id: byte
count never decreases and, once a total is known, neither does the
percentage. -/
def progressMono (download_id : String) (p q : Nat × Registry) : Prop :=
  ∀ d1 ∈ regFind p.2 download_id, ∀ d2 ∈ regFind q.2 download_id,
    d1.downloaded ≤ d2.downloaded ∧ (0 < d1.total_size → d1.percent ≤ d2.percent)

/-! ### Concrete fixtures used by witnesses and counterexamples -/

/-- A record as `download_model` creates it, with chosen progress fields. -/
def sampleRecAt (ts dl pct : Nat) : DownloadData :=
  { url := "http://x/model.bin", folder := "checkpoints", filename := "m.bin",
    path := "/models/checkpoints/m.bin", total_size := ts, downloaded := dl, percent := pct,
    status := .downloading, error := none, start_time := 500, download_id := "d1" }

/-- A registry holding one freshly-created record. -/
def sampleReg : Registry := [("d1", sampleRecAt 0 0 0)]

/-- A registry holding one record whose total size is already known. -/
def sampleReg2 : Registry := [("d1", sampleRecAt 2 0 0)]

/-- A folder resolver knowing only the `checkpoints` category. -/
def gfpCheckpoints : String → List String :=
  fun f => if f = "checkpoints" then ["/models/checkpoints"] else []

/-- An environment whose GET is answered 404. -/
def env404 : Env :=
  { file_exists := fun _ => false, mkdir_fails := false, mkdir_err := "", t_prep := 500,
    head := .failed,
    get := { status := 404, reason := "Not Found", content_length := none,
             content_type := "", chunks := [] },
    clock := fun _ => 501, stream_start := 500, t_end := 502 }

/-- An environment whose GET is answered 206 Partial Content. -/
def env206 : Env :=
  { env404 with
    get := { status := 206, reason := "Partial Content", content_length := some 2097152,
             content_type := "application/octet-stream", chunks := [1048576] } }

/-- The environment of the spec's concrete scenario: both requests declare
`content-length: 2097152` and the body arrives as two 1 MiB chunks. -/
def envOK : Env :=
  { env404 with
    head := .resp 200 (some 2097152) "application/octet-stream",
    get := { status := 200, reason := "OK", content_length := some 2097152,
             content_type := "application/octet-stream", chunks := [1048576, 1048576] } }

/-- Like `envOK` but with the size-discovery step failing. -/
def envHeadFail : Env := { envOK with head := .failed }

/-- Like `envOK` but with the destination path already occupied. -/
def envConflict : Env := { envOK with file_exists := fun _ => true, t_prep := 42 }

/-- The intake step of the spec's concrete scenario. -/
def c9intake : IntakeResult :=
  download_model gfpCheckpoints (some "http://x/model.bin") (some "checkpoints")
    (some "m.bin") 500 []

/-! ### Registry lemmas -/

theorem regFind_regInsert_self (reg : Registry) (k : String) (v : DownloadData) :
    regFind (regInsert reg k v) k = some v := by
  simp [regFind, regInsert, List.find?_cons]

theorem regFind_regUpdate_self (reg : Registry) (k : String) (f : DownloadData → DownloadData) :
    regFind (regUpdate reg k f) k = (regFind reg k).map f := by
  unfold regUpdate
  cases h : regFind reg k with
  | none => simpa using h
  | some d => simp [regFind, List.find?_cons]

theorem regFind_regErase_self (reg : Registry) (k : String) :
    regFind (regErase reg k) k = none := by
  induction reg with
  | nil => rfl
  | cons p t ih =>
    by_cases hp : p.1 == k
    · simpa [regErase, List.filter_cons, hp] using ih
    · simpa [regErase, List.filter_cons, hp, regFind, List.find?_cons] using ih

theorem regFind_regUpdate_map {α : Type} (g : DownloadData → α) (reg : Registry) (k : String)
    (f : DownloadData → DownloadData) (hf : ∀ d, g (f d) = g d) :
    (regFind (regUpdate reg k f) k).map g = (regFind reg k).map g := by
  rw [regFind_regUpdate_self]
  cases regFind reg k <;> simp [hf]

/-! ### Decimal numeral lemmas -/

theorem decodeDec_append_digit (l : List Char) (c : Char) :
    decodeDec (l ++ [c]) = 10 * decodeDec l + (c.toNat - 48) := by
  simp [decodeDec, List.foldl_append]

theorem digit_toNat (k : Nat) (h : k < 10) : (Char.ofNat (48 + k)).toNat = 48 + k := by
  interval_cases k <;> rfl

theorem natToDecCore_decode (f : Nat) : ∀ n, n < f → decodeDec (natToDecCore f n) = n := by
  induction f with
  | zero => intro n h; omega
  | succ f ih =>
    intro n h
    unfold natToDecCore
    by_cases h10 : n < 10
    · simp [h10, decodeDec, digit_toNat n h10]
    · have hdiv : n / 10 < n := Nat.div_lt_self (by omega) (by omega)
      have hmod : n % 10 < 10 := Nat.mod_lt _ (by omega)
      simp only [h10, if_false]
      rw [decodeDec_append_digit, ih (n / 10) (by omega), digit_toNat (n % 10) hmod]
      have := Nat.div_add_mod n 10
      omega

theorem natToDec_inj {a b : Nat} (h : natToDec a = natToDec b) : a = b := by
  have hd : natToDecCore (a + 1) a = natToDecCore (b + 1) b := by
    simpa [natToDec] using congrArg String.data h
  have : decodeDec (natToDecCore (a + 1) a) = decodeDec (natToDecCore (b + 1) b) :=
    congrArg decodeDec hd
  rwa [natToDecCore_decode _ a (by omega), natToDecCore_decode _ b (by omega)] at this

/-! ### Record-field lemmas -/

theorem progressedRecord_downloaded (dl ts now st : Nat) (d : DownloadData) :
    (progressedRecord dl ts now st d).downloaded = dl := by
  simp only [progressedRecord]
  split_ifs <;> first | rfl | (exfalso; omega)

theorem progressedRecord_percent_pos (dl ts now st : Nat) (d : DownloadData) (h : 0 < ts) :
    (progressedRecord dl ts now st d).percent = dl * 100 / ts := by
  simp only [progressedRecord]
  split_ifs <;> first | rfl | (exfalso; omega)

theorem progressedRecord_percent_zero (dl ts now st : Nat) (d : DownloadData) (h : ts = 0) :
    (progressedRecord dl ts now st d).percent = d.percent := by
  subst h
  simp only [progressedRecord]
  split_ifs <;> first | rfl | (exfalso; omega)

theorem progressedRecord_total_size (dl ts now st : Nat) (d : DownloadData) :
    (progressedRecord dl ts now st d).total_size = d.total_size := by
  simp only [progressedRecord]
  split_ifs <;> first | rfl | (exfalso; omega)

theorem progressedRecord_content_type (dl ts now st : Nat) (d : DownloadData) :
    (progressedRecord dl ts now st d).content_type = d.content_type := by
  simp only [progressedRecord]
  split_ifs <;> first | rfl | (exfalso; omega)

theorem progressedRecord_status (dl ts now st : Nat) (d : DownloadData) :
    (progressedRecord dl ts now st d).status = d.status := by
  simp only [progressedRecord]
  split_ifs <;> first | rfl | (exfalso; omega)

theorem progressedRecord_path (dl ts now st : Nat) (d : DownloadData) :
    (progressedRecord dl ts now st d).path = d.path := by
  simp only [progressedRecord]
  split_ifs <;> first | rfl | (exfalso; omega)

theorem progressedRecord_filename (dl ts now st : Nat) (d : DownloadData) :
    (progressedRecord dl ts now st d).filename = d.filename := by
  simp only [progressedRecord]
  split_ifs <;> first | rfl | (exfalso; omega)

/-! ### Stream-loop lemmas -/

theorem streamRun_nil (download_id : String) (ts : Nat) (ck : Nat → Nat) (st : Nat)
    (dl i : Nat) (reg : Registry) :
    streamRun download_id ts ck st [] dl i reg = (dl, reg) := rfl

theorem streamRun_zero (download_id : String) (ts : Nat) (ck : Nat → Nat) (st : Nat)
    (rest : List Nat) (dl i : Nat) (reg : Registry) :
    streamRun download_id ts ck st (0 :: rest) dl i reg = (dl, reg) := rfl

theorem streamRun_cons (download_id : String) (ts : Nat) (ck : Nat → Nat) (st : Nat)
    (c : Nat) (rest : List Nat) (dl i : Nat) (reg : Registry) (hc : c ≠ 0) :
    streamRun download_id ts ck st (c :: rest) dl i reg =
      streamRun download_id ts ck st rest (dl + c) (i + 1)
        (_update_download_progress download_id (dl + c) ts (ck i) st reg) := by
  simp only [streamRun, streamTrace, hc, if_false, List.getLastD_cons]

theorem streamRun_find_map {α : Type} (g : DownloadData → α)
    (hg : ∀ dl ts now st d, g (progressedRecord dl ts now st d) = g d)
    (download_id : String) (ts : Nat) (ck : Nat → Nat) (st : Nat) :
    ∀ (chunks : List Nat) (dl i : Nat) (reg : Registry),
      (regFind (streamRun download_id ts ck st chunks dl i reg).2 download_id).map g =
        (regFind reg download_id).map g := by
  intro chunks
  induction chunks with
  | nil => intro dl i reg; rfl
  | cons c rest ih =>
    intro dl i reg
    by_cases hc : c = 0
    · subst hc; rfl
    · rw [streamRun_cons _ _ _ _ _ _ _ _ _ hc, ih]
      exact regFind_regUpdate_map g _ _ _ (fun d => hg _ _ _ _ d)

/-! ### Finalization lemmas -/

theorem finalizedRecord_status (dl ts te : Nat) (d : DownloadData) :
    (finalizedRecord dl ts te d).status = .completed := rfl

theorem finalizedRecord_total_size (dl ts te : Nat) (d : DownloadData) :
    (finalizedRecord dl ts te d).total_size = d.total_size := rfl

theorem finalizedRecord_content_type (dl ts te : Nat) (d : DownloadData) :
    (finalizedRecord dl ts te d).content_type = d.content_type := rfl

theorem finalizedRecord_downloaded (dl ts te : Nat) (d : DownloadData) :
    (finalizedRecord dl ts te d).downloaded = dl := rfl

theorem finalizedRecord_percent (dl ts te : Nat) (d : DownloadData) :
    (finalizedRecord dl ts te d).percent = if 0 < ts then 100 else 0 := rfl

/-! ### Preparation-phase lemmas -/

theorem prep_no_conflict (env : Env) (download_id p : String) (reg : Registry)
    (hm : env.mkdir_fails = false) (hex : env.file_exists p = false) :
    _prepare_download_path env download_id p reg = (some p, reg) := by
  simp [_prepare_download_path, hm, hex]

theorem prep_conflict (env : Env) (download_id p : String) (reg : Registry)
    (hm : env.mkdir_fails = false) (hex : env.file_exists p = true) :
    _prepare_download_path env download_id p reg =
      (some (renamed_path p env.t_prep),
        regUpdate reg download_id (fun d =>
          { d with path := renamed_path p env.t_prep,
                   filename := timestamped_name p env.t_prep })) := by
  simp [_prepare_download_path, hm, hex, renamed_path, timestamped_name]

theorem prep_isSome (env : Env) (download_id p : String) (reg : Registry)
    (hm : env.mkdir_fails = false) :
    (_prepare_download_path env download_id p reg).1.isSome = true := by
  cases hex : env.file_exists p
  · rw [prep_no_conflict env download_id p reg hm hex]; rfl
  · rw [prep_conflict env download_id p reg hm hex]; rfl

theorem prep_find_map {α : Type} (g : DownloadData → α)
    (hg : ∀ d pa fn, g { d with path := pa, filename := fn } = g d)
    (env : Env) (download_id p : String) (reg : Registry) (hm : env.mkdir_fails = false) :
    (regFind (_prepare_download_path env download_id p reg).2 download_id).map g
      = (regFind reg download_id).map g := by
  cases hex : env.file_exists p
  · rw [prep_no_conflict env download_id p reg hm hex]
  · rw [prep_conflict env download_id p reg hm hex]
    exact regFind_regUpdate_map g _ _ _ (fun d => hg d _ _)

/-! ### Size-discovery lemmas -/

theorem fetch_failed (h : HeadResult) (download_id : String) (reg : Registry)
    (hh : headFailed h = true) : _fetch_content_length h download_id reg = reg := by
  cases h with
  | failed => rfl
  | resp status content_length content_type =>
    unfold _fetch_content_length
    by_cases hs : status = 200
    · subst hs
      simp only [headFailed, beq_self_eq_true, Bool.not_true, Bool.false_or] at hh
      rw [Option.isNone_iff_eq_none] at hh
      subst hh
      simp
    · simp [hs]

theorem fetch_find_map {α : Type} (g : DownloadData → α)
    (hg : ∀ d n ct, g { d with total_size := n, content_type := some ct } = g d)
    (h : HeadResult) (download_id : String) (reg : Registry) :
    (regFind (_fetch_content_length h download_id reg) download_id).map g
      = (regFind reg download_id).map g := by
  cases h with
  | failed => rfl
  | resp status content_length content_type =>
    unfold _fetch_content_length
    by_cases hs : status = 200
    · cases content_length with
      | none => simp [hs]
      | some n =>
        simp only [hs, if_pos rfl]
        exact regFind_regUpdate_map g _ _ _ (fun d => hg d _ _)
    · simp [hs]

theorem getOrUpdate_find_map {α : Type} (g : DownloadData → α)
    (hg : ∀ d n ct, g { d with total_size := n, content_type := some ct } = g d)
    (download_id : String) (cl : Option Nat) (ct : String) (reg : Registry) :
    (regFind (_get_or_update_total_size download_id cl ct reg).2 download_id).map g
      = (regFind reg download_id).map g := by
  unfold _get_or_update_total_size
  cases hd : regFind reg download_id with
  | none =>
    simp only [hd]
    split_ifs <;> cases cl <;>
      simp [hd, regFind_regUpdate_map g _ _ _ (fun d => hg d _ _)]
  | some d =>
    simp only [hd]
    split_ifs <;> cases cl <;>
      simp [hd, regFind_regUpdate_map g _ _ _ (fun d => hg d _ _)]

theorem getOrUpdate_sets (download_id : String) (n : Nat) (ct : String) (reg : Registry)
    (d : DownloadData) (hd : regFind reg download_id = some d) (h0 : d.total_size = 0) :
    _get_or_update_total_size download_id (some n) ct reg =
      (n, regUpdate reg download_id (fun d =>
        { d with total_size := n, content_type := some ct })) := by
  unfold _get_or_update_total_size
  simp [hd, h0]

theorem getOrUpdate_known (download_id : String) (cl : Option Nat) (ct : String)
    (reg : Registry) (d : DownloadData) (hd : regFind reg download_id = some d)
    (h0 : d.total_size ≠ 0) :
    _get_or_update_total_size download_id cl ct reg = (d.total_size, reg) := by
  unfold _get_or_update_total_size
  simp [hd, h0]

theorem prep_shape (env : Env) (download_id p : String) (reg : Registry)
    (hm : env.mkdir_fails = false) :
    ∃ q, _prepare_download_path env download_id p reg =
      (some q, (_prepare_download_path env download_id p reg).2) := by
  cases hex : env.file_exists p
  · rw [prep_no_conflict env download_id p reg hm hex]
    exact ⟨p, rfl⟩
  · rw [prep_conflict env download_id p reg hm hex]
    exact ⟨_, rfl⟩

theorem download_file_eq_of_prep (env : Env) (download_id url full_path q : String)
    (reg reg1 : Registry)
    (hp : _prepare_download_path env download_id full_path reg = (some q, reg1)) :
    download_file env download_id url full_path reg =
      (match _download_with_progress env.get env.clock env.stream_start env.t_end download_id q
          (_fetch_content_length env.head download_id reg1) with
      | .ok (reg3, _, opened) => ⟨reg3, true, some opened⟩
      | .error _ =>
        ⟨regUpdate (_fetch_content_length env.head download_id reg1) download_id (fun d =>
          { d with status := .error, error := some "Download failed",
                   end_time := some env.t_end }), false, none⟩) := by
  unfold download_file
  rw [hp]

/-! ### Terminal-state characterizations of the whole task -/

theorem download_file_error_state (env : Env) (download_id url full_path : String)
    (reg : Registry) (d : DownloadData) (hm : env.mkdir_fails = false)
    (hs : env.get.status ≠ 200) (hd : regFind reg download_id = some d) :
    (download_file env download_id url full_path reg).purge = false ∧
    (download_file env download_id url full_path reg).written_path = none ∧
    (regFind (download_file env download_id url full_path reg).reg download_id).map (·.status)
      = some .error ∧
    (regFind (download_file env download_id url full_path reg).reg download_id).map (·.error)
      = some (some "Download failed") := by
  obtain ⟨q, hq⟩ := prep_shape env download_id full_path reg hm
  have hpres : (regFind (_prepare_download_path env download_id full_path reg).2
      download_id).map (fun _ => ()) = (regFind reg download_id).map (fun _ => ()) :=
    prep_find_map (fun _ => ()) (fun _ _ _ => rfl) env download_id full_path reg hm
  rw [hd] at hpres
  obtain ⟨d1, hd1, -⟩ := Option.map_eq_some'.mp hpres
  have hpres2 : (regFind (_fetch_content_length env.head download_id
      (_prepare_download_path env download_id full_path reg).2) download_id).map (fun _ => ())
      = some () := by
    rw [fetch_find_map (fun _ => ()) (fun _ _ _ => rfl), hd1]; rfl
  obtain ⟨d2, hd2, -⟩ := Option.map_eq_some'.mp hpres2
  rw [download_file_eq_of_prep env download_id url full_path q _ _ hq]
  rw [_download_with_progress, if_pos hs]
  refine ⟨rfl, rfl, ?_, ?_⟩ <;>
    · rw [regFind_regUpdate_self, hd2]
      rfl

theorem download_file_ok_state (env : Env) (download_id url full_path : String)
    (reg : Registry) (d : DownloadData) (hm : env.mkdir_fails = false)
    (hs : env.get.status = 200) (hd : regFind reg download_id = some d) :
    (download_file env download_id url full_path reg).purge = true ∧
    (regFind (download_file env download_id url full_path reg).reg download_id).map (·.status)
      = some .completed := by
  obtain ⟨q, hq⟩ := prep_shape env download_id full_path reg hm
  have hpres : (regFind (_prepare_download_path env download_id full_path reg).2
      download_id).map (fun _ => ()) = (regFind reg download_id).map (fun _ => ()) :=
    prep_find_map (fun _ => ()) (fun _ _ _ => rfl) env download_id full_path reg hm
  rw [hd] at hpres
  obtain ⟨d1, hd1, -⟩ := Option.map_eq_some'.mp hpres
  have hpres2 : (regFind (_fetch_content_length env.head download_id
      (_prepare_download_path env download_id full_path reg).2) download_id).map (fun _ => ())
      = some () := by
    rw [fetch_find_map (fun _ => ()) (fun _ _ _ => rfl), hd1]; rfl
  obtain ⟨d2, hd2, -⟩ := Option.map_eq_some'.mp hpres2
  have hpres3 : (regFind (_get_or_update_total_size download_id env.get.content_length
      env.get.content_type (_fetch_content_length env.head download_id
        (_prepare_download_path env download_id full_path reg).2)).2 download_id).map
      (fun _ => ()) = some () := by
    rw [getOrUpdate_find_map (fun _ => ()) (fun _ _ _ => rfl), hd2]; rfl
  obtain ⟨d3, hd3, -⟩ := Option.map_eq_some'.mp hpres3
  have hpres4 : (regFind (streamRun download_id
      (_get_or_update_total_size download_id env.get.content_length env.get.content_type
        (_fetch_content_length env.head download_id
          (_prepare_download_path env download_id full_path reg).2)).1
      env.clock env.stream_start env.get.chunks 0 0
      (_get_or_update_total_size download_id env.get.content_length env.get.content_type
        (_fetch_content_length env.head download_id
          (_prepare_download_path env download_id full_path reg).2)).2).2 download_id).map
      (fun _ => ()) = some () := by
    rw [streamRun_find_map (fun _ => ()) (fun _ _ _ _ _ => rfl), hd3]
    rfl
  obtain ⟨d4, hd4, -⟩ := Option.map_eq_some'.mp hpres4
  rw [download_file_eq_of_prep env download_id url full_path q _ _ hq]
  rw [_download_with_progress, if_neg (by simp [hs])]
  rw [hq] at hd4
  refine ⟨rfl, ?_⟩
  dsimp only
  rw [_finalize_download, regFind_regUpdate_self, hd4]
  rfl

theorem lookup_notFound (reg : Registry) (download_id : String)
    (h : regFind reg download_id = none) :
    get_download_progress reg (some download_id) = .notFound := by
  unfold get_download_progress
  cases ht : truthy (some download_id)
  · simp
  · simp [h]

/-! ### Path-string lemmas -/

theorem takeWhile_append_of_all {α : Type} (p : α → Bool) (l1 l2 : List α)
    (h : ∀ c ∈ l1, p c) : (l1 ++ l2).takeWhile p = l1 ++ l2.takeWhile p := by
  induction l1 with
  | nil => simp
  | cons a t ih =>
    simp only [List.cons_append, List.takeWhile_cons]
    rw [h a (by simp)]
    simp [ih (fun c hc => h c (by simp [hc]))]

theorem takeWhile_eq_self_of_all {α : Type} (p : α → Bool) (l : List α)
    (h : ∀ c ∈ l, p c) : l.takeWhile p = l := by
  simpa using takeWhile_append_of_all p l [] h

theorem splitext_append (name : String) :
    (splitext name).1.data ++ (splitext name).2.data = name.data := by
  unfold splitext
  cases hdw : name.data.reverse.dropWhile (fun c => !(c == '.')) with
  | nil => simp [hdw]
  | cons c rest =>
    simp only [hdw]
    by_cases hall : rest.all (fun c => c == '.')
    · simp [hall]
    · simp only [hall, if_false, ite_false, Bool.false_eq_true]
      have hsplit : name.data.reverse.takeWhile (fun c => !(c == '.'))
          ++ name.data.reverse.dropWhile (fun c => !(c == '.')) = name.data.reverse :=
        List.takeWhile_append_dropWhile (p := fun c => !(c == '.')) (l := name.data.reverse)
      rw [hdw] at hsplit
      have hrev := congrArg List.reverse hsplit
      simp only [List.reverse_append, List.reverse_cons, List.reverse_reverse] at hrev
      conv_rhs => rw [← hrev]
      simp

theorem basename_no_slash (p : String) : '/' ∉ (os_basename p).data := by
  intro hmem
  have h1 : '/' ∈ p.data.reverse.takeWhile (fun c => !(c == '/')) := by
    simpa [os_basename] using hmem
  have h2 := List.mem_takeWhile_imp h1
  simp at h2

theorem natToDecCore_digit (f : Nat) : ∀ n c, c ∈ natToDecCore f n → c ≠ '/' := by
  induction f with
  | zero => intro n c h; simp [natToDecCore] at h
  | succ f ih =>
    intro n c h
    unfold natToDecCore at h
    by_cases h10 : n < 10
    · simp only [h10, if_pos, List.mem_singleton] at h
      subst h
      intro hc
      have h47 := congrArg Char.toNat hc
      rw [digit_toNat n h10] at h47
      have : ('/').toNat = 47 := rfl
      omega
    · simp only [h10, if_false, ite_false, List.mem_append, List.mem_singleton] at h
      rcases h with h | h
      · exact ih _ _ h
      · subst h
        intro hc
        have h47 := congrArg Char.toNat hc
        rw [digit_toNat (n % 10) (Nat.mod_lt _ (by omega))] at h47
        have : ('/').toNat = 47 := rfl
        omega

theorem natToDec_no_slash (t : Nat) : '/' ∉ (natToDec t).data := by
  intro h
  exact natToDecCore_digit (t + 1) t '/' (by simpa [natToDec] using h) rfl

theorem timestamped_name_data (p : String) (t : Nat) :
    (timestamped_name p t).data = (splitext (os_basename p)).1.data ++ '_'
      :: ((natToDec t).data ++ (splitext (os_basename p)).2.data) := by
  simp [timestamped_name, String.data_append]

theorem timestamped_name_no_slash (p : String) (t : Nat) :
    '/' ∉ (timestamped_name p t).data := by
  intro h
  rw [timestamped_name_data] at h
  simp only [List.mem_append, List.mem_cons] at h
  have hbase := basename_no_slash p
  rw [← splitext_append (os_basename p)] at hbase
  simp only [List.mem_append] at hbase
  rcases h with h | h | h
  · exact hbase (Or.inl h)
  · exact absurd h.symm (by decide)
  · rcases h with h | h
    · exact natToDec_no_slash t h
    · exact hbase (Or.inr h)

theorem timestamped_name_length (p : String) (t : Nat) :
    (timestamped_name p t).data.length
      = (os_basename p).data.length + 1 + (natToDec t).data.length := by
  have hlen := congrArg List.length (splitext_append (os_basename p))
  rw [timestamped_name_data]
  simp only [List.length_append, List.length_cons] at hlen ⊢
  omega

theorem timestamped_name_ne_basename (p : String) (t : Nat) :
    timestamped_name p t ≠ os_basename p := by
  intro h
  have hl := congrArg (fun s => s.data.length) h
  simp only at hl
  rw [timestamped_name_length] at hl
  omega

theorem basename_of_no_slash (l : List Char) (h : '/' ∉ l) :
    os_basename ⟨l⟩ = ⟨l⟩ := by
  unfold os_basename
  refine congrArg String.mk ?_
  show (l.reverse.takeWhile (fun c => !(c == '/'))).reverse = l
  rw [takeWhile_eq_self_of_all _ _ (fun c hc => by
    simp only [List.mem_reverse] at hc
    simp only [Bool.not_eq_true', beq_eq_false_iff_ne, ne_eq]
    intro heq
    exact h (heq ▸ hc))]
  exact List.reverse_reverse l

theorem basename_concat (pre nb : List Char) (h : '/' ∉ nb) :
    os_basename ⟨pre ++ '/' :: nb⟩ = ⟨nb⟩ := by
  unfold os_basename
  refine congrArg String.mk ?_
  show ((pre ++ '/' :: nb).reverse.takeWhile (fun c => !(c == '/'))).reverse = nb
  rw [List.reverse_append, List.reverse_cons, List.append_assoc]
  rw [takeWhile_append_of_all _ _ _ (fun c hc => by
    simp only [List.mem_reverse] at hc
    simp only [Bool.not_eq_true', beq_eq_false_iff_ne, ne_eq]
    intro heq
    exact h (heq ▸ hc))]
  simp

theorem os_basename_os_join (a nb : String) (h : '/' ∉ nb.data) :
    os_basename (os_join a nb) = nb := by
  unfold os_join
  split_ifs with h1 h2
  · exfalso
    cases hl : nb.data with
    | nil => rw [hl] at h1; simp at h1
    | cons c t =>
      rw [hl] at h1
      simp only [List.head?_cons, Option.some.injEq] at h1
      exact h (h1 ▸ by simp [hl])
  · rcases h2 with h2 | h2
    · have he : a ++ nb = (⟨nb.data⟩ : String) := by
        have hd : (a ++ nb).data = nb.data := by rw [String.data_append, h2]; rfl
        calc a ++ nb = ⟨(a ++ nb).data⟩ := rfl
        _ = ⟨nb.data⟩ := by rw [hd]
      rw [he, basename_of_no_slash nb.data h]
    · have hne' : a.data ≠ [] := by
        intro hnil; rw [hnil] at h2; simp at h2
      have hlast : a.data.getLast hne' = '/' := by
        rw [List.getLast?_eq_getLast _ hne'] at h2
        exact Option.some.inj h2
      have hsplit : a.data.dropLast ++ ['/'] = a.data := by
        rw [← hlast]; exact List.dropLast_append_getLast hne'
      have he : a ++ nb = (⟨a.data.dropLast ++ '/' :: nb.data⟩ : String) := by
        have hd : (a ++ nb).data = a.data.dropLast ++ '/' :: nb.data := by
          rw [String.data_append]
          conv_lhs => rw [← hsplit]
          simp
        calc a ++ nb = ⟨(a ++ nb).data⟩ := rfl
        _ = _ := by rw [hd]
      rw [he, basename_concat _ _ h]
  · have he : a ++ "/" ++ nb = (⟨a.data ++ '/' :: nb.data⟩ : String) := by
      have hd : (a ++ "/" ++ nb).data = a.data ++ '/' :: nb.data := by
        rw [String.data_append, String.data_append, List.append_assoc]; rfl
      calc a ++ "/" ++ nb = ⟨(a ++ "/" ++ nb).data⟩ := rfl
      _ = _ := by rw [hd]
    rw [he, basename_concat _ _ h]

theorem renamed_path_ne (p : String) (t : Nat) : renamed_path p t ≠ p := by
  intro he
  have hb : os_basename (os_join (os_dirname p) (timestamped_name p t))
      = timestamped_name p t :=
    os_basename_os_join _ _ (timestamped_name_no_slash p t)
  rw [renamed_path] at he
  rw [he] at hb
  exact timestamped_name_ne_basename p t hb.symm

/-! ### Intake-shape lemmas -/

theorem download_model_id_shape (gfp : String → List String)
    (url folder filename : Option String) (now : Nat) (reg : Registry) (id : String)
    (h : (download_model gfp url folder filename now reg).response.idOf = some id) :
    id = download_id_for (folder.getD "") (filename.getD "") now := by
  unfold download_model at h
  by_cases hT : (truthy url && truthy folder && truthy filename) = true
  · rw [hT] at h
    rw [if_neg (by simp)] at h
    dsimp only at h
    cases hg : gfp (folder.getD "") with
    | nil => rw [hg] at h; simp [IntakeResponse.idOf] at h
    | cons base rest =>
      rw [hg] at h
      simp only [IntakeResponse.idOf, Option.some.injEq] at h
      exact h.symm
  · rw [Bool.not_eq_true] at hT
    rw [hT] at h
    rw [if_pos (by simp)] at h
    simp [IntakeResponse.idOf] at h

theorem download_id_for_time_inj {f n : String} {t1 t2 : Nat}
    (h : download_id_for f n t1 = download_id_for f n t2) : t1 = t2 := by
  have hd := congrArg String.data h
  simp only [download_id_for, String.data_append, List.append_assoc] at hd
  have h1 := List.append_cancel_left hd
  have h2 := List.append_cancel_left h1
  have h3 := List.append_cancel_left h2
  have h4 := List.append_cancel_left h3
  apply natToDec_inj (a := t1) (b := t2)
  calc natToDec t1 = ⟨(natToDec t1).data⟩ := rfl
  _ = ⟨(natToDec t2).data⟩ := by rw [h4]
  _ = natToDec t2 := rfl

/-- `_prepare_download_path` when `os.makedirs` raises. -/
theorem prep_mkdir_fail (env : Env) (download_id p : String) (reg : Registry)
    (hA : (!(env.file_exists (os_dirname p)) && env.mkdir_fails) = true) :
    _prepare_download_path env download_id p reg =
      (none, regUpdate reg download_id (fun d =>
        { d with status := .error,
                 error := some ("Failed to create directory: " ++ env.mkdir_err) })) := by
  unfold _prepare_download_path
  simp [hA]

/-- `_prepare_download_path` without directory error and without conflict. -/
theorem prep_no_conflict_of_cond (env : Env) (download_id p : String) (reg : Registry)
    (hA : (!(env.file_exists (os_dirname p)) && env.mkdir_fails) = false)
    (hex : env.file_exists p = false) :
    _prepare_download_path env download_id p reg = (some p, reg) := by
  unfold _prepare_download_path
  simp [hA, hex]

/-- `_prepare_download_path` without directory error, with the destination
already occupied. -/
theorem prep_conflict_of_cond (env : Env) (download_id p : String) (reg : Registry)
    (hA : (!(env.file_exists (os_dirname p)) && env.mkdir_fails) = false)
    (hex : env.file_exists p = true) :
    _prepare_download_path env download_id p reg =
      (some (renamed_path p env.t_prep),
        regUpdate reg download_id (fun d =>
          { d with path := renamed_path p env.t_prep,
                   filename := timestamped_name p env.t_prep })) := by
  unfold _prepare_download_path
  simp [hA, hex, renamed_path, timestamped_name]

/-- Once preparation has produced a destination, a run either finalizes
(pop scheduled, surviving record completed) or errors (no pop, surviving
record in the error state). -/
theorem download_file_dichotomy_of_prep (env : Env)
    (download_id url full_path q : String) (reg reg1 : Registry)
    (hp : _prepare_download_path env download_id full_path reg = (some q, reg1)) :
    ((download_file env download_id url full_path reg).purge = true ∧
      ∀ d, regFind (download_file env download_id url full_path reg).reg download_id = some d →
        d.status = .completed) ∨
    ((download_file env download_id url full_path reg).purge = false ∧
      ∀ d, regFind (download_file env download_id url full_path reg).reg download_id = some d →
        d.status = .error) := by
  rw [download_file_eq_of_prep env download_id url full_path q reg reg1 hp]
  by_cases hs : env.get.status = 200
  · left
    rw [_download_with_progress, if_neg (by simp [hs])]
    dsimp only
    refine ⟨rfl, ?_⟩
    intro d hd
    rw [_finalize_download, regFind_regUpdate_self] at hd
    obtain ⟨d0, -, hfd⟩ := Option.map_eq_some'.mp hd
    rw [← hfd]
    rfl
  · right
    rw [_download_with_progress, if_pos hs]
    dsimp only
    refine ⟨rfl, ?_⟩
    intro d hd
    rw [regFind_regUpdate_self] at hd
    obtain ⟨d0, -, hfd⟩ := Option.map_eq_some'.mp hd
    rw [← hfd]

/-- Every run of `download_file` ends in one of exactly two shapes: the
success path (retention pop scheduled, any surviving record completed) or
an error path (no pop ever, any surviving record in the error state). -/
theorem download_file_cases (env : Env) (download_id url full_path : String) (reg : Registry) :
    ((download_file env download_id url full_path reg).purge = true ∧
      ∀ d, regFind (download_file env download_id url full_path reg).reg download_id = some d →
        d.status = .completed) ∨
    ((download_file env download_id url full_path reg).purge = false ∧
      ∀ d, regFind (download_file env download_id url full_path reg).reg download_id = some d →
        d.status = .error) := by
  cases hA : (!(env.file_exists (os_dirname full_path)) && env.mkdir_fails) with
  | true =>
    right
    unfold download_file
    rw [prep_mkdir_fail env download_id full_path reg hA]
    dsimp only
    refine ⟨rfl, ?_⟩
    intro d hd
    rw [regFind_regUpdate_self] at hd
    obtain ⟨d0, -, hfd⟩ := Option.map_eq_some'.mp hd
    rw [← hfd]
  | false =>
    cases hB : env.file_exists full_path with
    | true =>
      exact download_file_dichotomy_of_prep env download_id url full_path _ reg _
        (prep_conflict_of_cond env download_id full_path reg hA hB)
    | false =>
      exact download_file_dichotomy_of_prep env download_id url full_path _ reg _
        (prep_no_conflict_of_cond env download_id full_path reg hA hB)

/-! ### The claims -/

/-- Claim C5: an intake request in which any of `url`, `folder`,
`filename` is absent is answered `success:false` with
"Missing required parameters", the registry — and hence the listing
endpoint — is left unchanged, and no background task is spawned. -/
theorem claim5_missing_params (gfp : String → List String)
    (url folder filename : Option String) (now : Nat) (reg : Registry)
    (h : url = none ∨ folder = none ∨ filename = none) :
    (download_model gfp url folder filename now reg).response
      = .failure "Missing required parameters" ∧
    (download_model gfp url folder filename now reg).reg = reg ∧
    list_downloads (download_model gfp url folder filename now reg).reg
      = list_downloads reg ∧
    (download_model gfp url folder filename now reg).task = none := by
  have ht : (truthy url && truthy folder && truthy filename) = false := by
    rcases h with h | h | h <;> subst h <;> simp [truthy]
  rw [download_model, ht]
  exact ⟨rfl, rfl, rfl, rfl⟩

/-- Witness for C5 at a concrete request with `url` absent. -/
theorem claim5_missing_params_witness :
    (download_model gfpCheckpoints none (some "checkpoints") (some "m.bin") 500 []).response
      = .failure "Missing required parameters" ∧
    (download_model gfpCheckpoints none (some "checkpoints") (some "m.bin") 500 []).reg = [] ∧
    list_downloads (download_model gfpCheckpoints none (some "checkpoints") (some "m.bin")
      500 []).reg = list_downloads [] ∧
    (download_model gfpCheckpoints none (some "checkpoints") (some "m.bin") 500 []).task
      = none :=
  claim5_missing_params gfpCheckpoints none (some "checkpoints") (some "m.bin") 500 []
    (Or.inl rfl)

/-- Counterexample to C3 as stated: with `totalSize = 2` and 3 bytes
streamed, `_update_download_progress` writes `percent = 150 > 100`. -/
theorem claim3_counterexample :
    (regFind (_update_download_progress "d1" 3 2 5 0 sampleReg2) "d1").map (·.percent)
      = some 150 ∧ ¬(150 ≤ 100) := by
  decide

/-- Claim C3 (amended): during streaming updates, `percent` is recomputed
only when `totalSize > 0`, and it never exceeds 100 provided the streamed
bytes do not exceed `totalSize`; when they do, it exceeds 100. -/
theorem claim3_amended (download_id : String) (downloaded total_size now start : Nat)
    (reg : Registry) :
    (total_size = 0 →
      (regFind (_update_download_progress download_id downloaded total_size now start reg)
        download_id).map (·.percent) = (regFind reg download_id).map (·.percent)) ∧
    (0 < total_size → downloaded ≤ total_size →
      ∀ d', regFind (_update_download_progress download_id downloaded total_size now start reg)
        download_id = some d' → d'.percent ≤ 100) := by
  constructor
  · intro h0
    exact regFind_regUpdate_map (·.percent) reg download_id _
      (fun d => progressedRecord_percent_zero _ _ _ _ d h0)
  · intro hpos hle d' hfind
    rw [_update_download_progress, regFind_regUpdate_self] at hfind
    obtain ⟨d, hd, hfd⟩ := Option.map_eq_some'.mp hfind
    rw [← hfd, progressedRecord_percent_pos _ _ _ _ _ hpos]
    calc downloaded * 100 / total_size
        ≤ total_size * 100 / total_size :=
          Nat.div_le_div_right (Nat.mul_le_mul_right _ hle)
    _ = 100 := Nat.mul_div_cancel_left 100 hpos

/-- Witness for C3 (amended) at concrete updates. -/
theorem claim3_amended_witness :
    (regFind (_update_download_progress "d1" 4 0 5 0 sampleReg) "d1").map (·.percent)
      = (regFind sampleReg "d1").map (·.percent) ∧
    (progressedRecord 1 2 5 0 (sampleRecAt 2 0 0)).percent ≤ 100 :=
  ⟨(claim3_amended "d1" 4 0 5 0 sampleReg).1 rfl,
   (claim3_amended "d1" 1 2 5 0 sampleReg2).2 (by decide) (by decide)
     (progressedRecord 1 2 5 0 (sampleRecAt 2 0 0)) (by decide)⟩

/-- Counterexample to C2 as stated: two accepted requests with identical
folder and filename in the same integer second are both acknowledged with
the SAME `download_id`. -/
theorem claim2_counterexample :
    (download_model gfpCheckpoints (some "http://a/x.bin") (some "checkpoints")
        (some "m.bin") 1000 []).response
      = .queued "checkpoints_m.bin_1000" "queued"
          "Download has been queued and will start automatically" ∧
    (download_model gfpCheckpoints (some "http://b/y.bin") (some "checkpoints")
        (some "m.bin") 1000
        (download_model gfpCheckpoints (some "http://a/x.bin") (some "checkpoints")
          (some "m.bin") 1000 []).reg).response
      = .queued "checkpoints_m.bin_1000" "queued"
          "Download has been queued and will start automatically" := by
  decide

/-- Claim C2 (amended): two accepted intake requests with identical folder
and filename receive distinct `download_id` values provided their
integer-second intake timestamps differ; two accepted within the same
second receive the same id, and the second insert replaces the first
record, so an id can map to more than one record over the process
lifetime. -/
theorem claim2_amended (gfp1 gfp2 : String → List String)
    (u1 u2 folder filename : Option String) (t1 t2 : Nat) (reg1 reg2 : Registry)
    (id1 id2 : String) (ht : t1 ≠ t2)
    (h1 : (download_model gfp1 u1 folder filename t1 reg1).response.idOf = some id1)
    (h2 : (download_model gfp2 u2 folder filename t2 reg2).response.idOf = some id2) :
    id1 ≠ id2 := by
  rw [download_model_id_shape gfp1 u1 folder filename t1 reg1 id1 h1,
      download_model_id_shape gfp2 u2 folder filename t2 reg2 id2 h2]
  intro he
  exact ht (download_id_for_time_inj he)

/-- Witness for C2 (amended): same folder and filename, one second apart. -/
theorem claim2_amended_witness : "checkpoints_m.bin_1000" ≠ "checkpoints_m.bin_1001" :=
  claim2_amended gfpCheckpoints gfpCheckpoints (some "http://a/x.bin") (some "http://a/x.bin")
    (some "checkpoints") (some "m.bin") 1000 1001 [] [] "checkpoints_m.bin_1000"
    "checkpoints_m.bin_1001" (by decide) (by decide) (by decide)

/-- Claim C10: `_download_with_progress` proceeds to reading the body
exactly when the GET status is 200; any other status — including other
2xx codes such as 201 or 206 — raises, and the download ends in the
`error` terminal state (while a 200 run ends `completed`). -/
theorem claim10_only_200 (env : Env) (download_id url full_path : String)
    (reg : Registry) (d : DownloadData) (hm : env.mkdir_fails = false)
    (hd : regFind reg download_id = some d) :
    (∀ reg' : Registry,
      exceptIsOk (_download_with_progress env.get env.clock env.stream_start env.t_end
        download_id full_path reg') = (env.get.status == 200)) ∧
    (env.get.status ≠ 200 →
      (regFind (download_file env download_id url full_path reg).reg download_id).map (·.status)
        = some .error) ∧
    (env.get.status = 200 →
      (regFind (download_file env download_id url full_path reg).reg download_id).map (·.status)
        = some .completed) := by
  refine ⟨?_, ?_, ?_⟩
  · intro reg'
    by_cases hs : env.get.status = 200
    · rw [_download_with_progress, if_neg (by simp [hs]), hs]
      rfl
    · rw [_download_with_progress, if_pos hs]
      simp [exceptIsOk, hs]
  · intro hs
    exact (download_file_error_state env download_id url full_path reg d hm hs hd).2.2.1
  · intro hs
    exact (download_file_ok_state env download_id url full_path reg d hm hs hd).2

/-- Witness for C10 at a 206 Partial Content response. -/
theorem claim10_only_200_witness :
    exceptIsOk (_download_with_progress env206.get env206.clock env206.stream_start
      env206.t_end "d1" "/models/checkpoints/m.bin" sampleReg) = (env206.get.status == 200) ∧
    (regFind (download_file env206 "d1" "u" "/models/checkpoints/m.bin" sampleReg).reg
      "d1").map (·.status) = some .error :=
  ⟨(claim10_only_200 env206 "d1" "u" "/models/checkpoints/m.bin" sampleReg
      (sampleRecAt 0 0 0) rfl rfl).1 sampleReg,
   (claim10_only_200 env206 "d1" "u" "/models/checkpoints/m.bin" sampleReg
      (sampleRecAt 0 0 0) rfl rfl).2.1 (by decide)⟩


/-- Counterexample to C1 as stated: a download that reaches the `error`
terminal state is never removed — a progress lookup after the retention
window still finds it instead of returning not-found. -/
theorem claim1_counterexample :
    (regFind (download_file env404 "d1" "u" "/models/checkpoints/m.bin" sampleReg).reg
      "d1").map (·.status) = some .error ∧
    get_download_progress
      (registryAfterWindow (download_file env404 "d1" "u" "/models/checkpoints/m.bin" sampleReg)
        "d1") (some "d1") ≠ .notFound := by
  decide

/-- Claim C1 (amended): a record observed in a terminal state when the
task ends is retrievable at that point; if it is `completed`, the
retention pop is scheduled and a progress lookup after the 60-second
window returns not-found; if it is `error`, the pop is never scheduled
and the record remains retrievable (lookup still succeeds) at any time
after the window. -/
theorem claim1_retention (env : Env) (download_id url full_path : String)
    (reg : Registry) (d : DownloadData)
    (hid : truthy (some download_id) = true)
    (hterm : regFind (download_file env download_id url full_path reg).reg download_id
      = some d) :
    (d.status = .completed →
      (download_file env download_id url full_path reg).purge = true ∧
      get_download_progress
        (registryAfterWindow (download_file env download_id url full_path reg) download_id)
        (some download_id) = .notFound) ∧
    (d.status = .error →
      (download_file env download_id url full_path reg).purge = false ∧
      get_download_progress
        (registryAfterWindow (download_file env download_id url full_path reg) download_id)
        (some download_id) = .found d) := by
  rcases download_file_cases env download_id url full_path reg with ⟨hp, hst⟩ | ⟨hp, hst⟩
  · constructor
    · intro _
      refine ⟨hp, ?_⟩
      apply lookup_notFound
      rw [registryAfterWindow, hp, if_pos rfl]
      exact regFind_regErase_self _ _
    · intro herr
      have hc := hst d hterm
      rw [hc] at herr
      exact absurd herr (by decide)
  · constructor
    · intro hcomp
      have hc := hst d hterm
      rw [hc] at hcomp
      exact absurd hcomp (by decide)
    · intro _
      refine ⟨hp, ?_⟩
      rw [registryAfterWindow, hp]
      rw [if_neg (by simp)]
      unfold get_download_progress
      rw [if_pos hid]
      dsimp only [Option.getD]
      rw [hterm]

/-- Witness for C1 (amended): the completed branch on the concrete
success scenario, and the error branch on the 404 scenario. -/
theorem claim1_retention_witness :
    ((download_file envOK "d1" "u" "/models/checkpoints/m.bin" sampleReg).purge = true ∧
      get_download_progress
        (registryAfterWindow (download_file envOK "d1" "u" "/models/checkpoints/m.bin" sampleReg)
          "d1") (some "d1") = .notFound) ∧
    ((download_file env404 "d1" "u" "/models/checkpoints/m.bin" sampleReg).purge = false ∧
      get_download_progress
        (registryAfterWindow (download_file env404 "d1" "u" "/models/checkpoints/m.bin" sampleReg)
          "d1") (some "d1")
        = .found ({ sampleRecAt 0 0 0 with status := .error,
                                           error := some "Download failed",
                                           end_time := some 502 })) :=
  ⟨(claim1_retention envOK "d1" "u" "/models/checkpoints/m.bin" sampleReg _ rfl rfl).1 rfl,
   (claim1_retention env404 "d1" "u" "/models/checkpoints/m.bin" sampleReg _ rfl rfl).2 rfl⟩

/-- Counterexample to C4 as stated: after a 404 GET the record's
`errorMessage` is the fixed string "Download failed" — it contains no
digit at all, so it cannot carry the status code 404 (nor the reason). -/
theorem claim4_counterexample :
    (regFind (download_file env404 "d1" "u" "/models/checkpoints/m.bin" sampleReg).reg
      "d1").map (·.error) = some (some "Download failed") ∧
    ("Download failed").data.any (·.isDigit) = false := by
  decide

/-- Claim C4 (amended): a non-200 (in particular any non-2xx) GET status
ends the download with `status == error` and the non-empty but FIXED
`errorMessage` "Download failed" (the status code and reason appear only
in the raised exception and the log, not in the record), and the record
remains retrievable by id throughout — and beyond — the retention
window, since error records are never purged. -/
theorem claim4_error_message (env : Env) (download_id url full_path : String)
    (reg : Registry) (d : DownloadData) (hm : env.mkdir_fails = false)
    (hs : env.get.status ≠ 200) (hd : regFind reg download_id = some d) :
    (regFind (download_file env download_id url full_path reg).reg download_id).map (·.status)
      = some .error ∧
    (regFind (download_file env download_id url full_path reg).reg download_id).map (·.error)
      = some (some "Download failed") ∧
    "Download failed" ≠ "" ∧
    registryAfterWindow (download_file env download_id url full_path reg) download_id
      = (download_file env download_id url full_path reg).reg := by
  obtain ⟨h1, h2, h3, h4⟩ :=
    download_file_error_state env download_id url full_path reg d hm hs hd
  refine ⟨h3, h4, by decide, ?_⟩
  rw [registryAfterWindow, h1]
  simp

/-- Witness for C4 (amended) on the concrete 404 run. -/
theorem claim4_error_message_witness :
    (regFind (download_file env404 "d1" "u" "/models/checkpoints/m.bin" sampleReg).reg
      "d1").map (·.status) = some .error ∧
    (regFind (download_file env404 "d1" "u" "/models/checkpoints/m.bin" sampleReg).reg
      "d1").map (·.error) = some (some "Download failed") ∧
    "Download failed" ≠ "" ∧
    registryAfterWindow (download_file env404 "d1" "u" "/models/checkpoints/m.bin" sampleReg)
      "d1" = (download_file env404 "d1" "u" "/models/checkpoints/m.bin" sampleReg).reg :=
  claim4_error_message env404 "d1" "u" "/models/checkpoints/m.bin" sampleReg
    (sampleRecAt 0 0 0) rfl (by decide) rfl

/-- Claim C6: a failed size-discovery step (exception, non-200, or missing
content-length) leaves the registry untouched, so streaming starts with
`totalSize = 0`; when the subsequent GET succeeds with a declared
content-length, the record's `totalSize` and `contentType` are set from
the GET headers and the download completes normally. -/
theorem claim6_head_failure_nonfatal (env : Env) (download_id url full_path : String)
    (reg : Registry) (d : DownloadData) (n : Nat)
    (hm : env.mkdir_fails = false) (hh : headFailed env.head = true)
    (hs : env.get.status = 200) (hcl : env.get.content_length = some n)
    (hd : regFind reg download_id = some d) (h0 : d.total_size = 0) :
    (∀ reg' : Registry, _fetch_content_length env.head download_id reg' = reg') ∧
    (regFind (download_file env download_id url full_path reg).reg download_id).map (·.status)
      = some .completed ∧
    (regFind (download_file env download_id url full_path reg).reg download_id).map
      (·.total_size) = some n ∧
    (regFind (download_file env download_id url full_path reg).reg download_id).map
      (·.content_type) = some (some env.get.content_type) := by
  have hfetch : ∀ reg' : Registry, _fetch_content_length env.head download_id reg' = reg' :=
    fun reg' => fetch_failed env.head download_id reg' hh
  refine ⟨hfetch, ?_⟩
  obtain ⟨q, hq⟩ := prep_shape env download_id full_path reg hm
  have hg2 : (regFind (_prepare_download_path env download_id full_path reg).2
      download_id).map (fun d => (d.total_size, d.content_type))
      = some (0, d.content_type) := by
    rw [prep_find_map (fun d => (d.total_size, d.content_type)) (fun _ _ _ => rfl)
      env download_id full_path reg hm, hd]
    simp [h0]
  obtain ⟨d1, hd1, hd1f⟩ := Option.map_eq_some'.mp hg2
  have h01 : d1.total_size = 0 := by
    have := congrArg Prod.fst hd1f
    simpa using this
  rw [download_file_eq_of_prep env download_id url full_path q _ _ hq]
  rw [_download_with_progress, if_neg (by simp [hs])]
  dsimp only
  rw [hfetch, hcl]
  rw [getOrUpdate_sets download_id n env.get.content_type _ d1 hd1 h01]
  dsimp only
  have hup : regFind (regUpdate (_prepare_download_path env download_id full_path reg).2
      download_id (fun d =>
        { d with total_size := n, content_type := some env.get.content_type })) download_id
      = some { d1 with total_size := n, content_type := some env.get.content_type } := by
    rw [regFind_regUpdate_self, hd1]
    rfl
  have hstream : (regFind (streamRun download_id n env.clock env.stream_start env.get.chunks
      0 0 (regUpdate (_prepare_download_path env download_id full_path reg).2 download_id
        (fun d =>
          { d with total_size := n, content_type := some env.get.content_type }))).2
      download_id).map (fun d => (d.total_size, d.content_type))
      = some (n, some env.get.content_type) := by
    rw [streamRun_find_map (fun d => (d.total_size, d.content_type))
      (fun dl ts now st d' => by
        rw [Prod.mk.injEq]
        exact ⟨progressedRecord_total_size dl ts now st d',
          progressedRecord_content_type dl ts now st d'⟩), hup]
    rfl
  obtain ⟨d4, hd4, hd4f⟩ := Option.map_eq_some'.mp hstream
  rw [_finalize_download, regFind_regUpdate_self, hd4]
  have ht4 : d4.total_size = n := by
    have := congrArg Prod.fst hd4f
    simpa using this
  have hc4 : d4.content_type = some env.get.content_type := by
    have := congrArg Prod.snd hd4f
    simpa using this
  refine ⟨rfl, ?_, ?_⟩
  · simp [finalizedRecord_total_size, ht4]
  · simp [finalizedRecord_content_type, hc4]

/-- Witness for C6: the concrete success scenario with a failed HEAD. -/
theorem claim6_head_failure_nonfatal_witness :
    (∀ reg' : Registry, _fetch_content_length envHeadFail.head "d1" reg' = reg') ∧
    (regFind (download_file envHeadFail "d1" "u" "/models/checkpoints/m.bin" sampleReg).reg
      "d1").map (·.status) = some .completed ∧
    (regFind (download_file envHeadFail "d1" "u" "/models/checkpoints/m.bin" sampleReg).reg
      "d1").map (·.total_size) = some 2097152 ∧
    (regFind (download_file envHeadFail "d1" "u" "/models/checkpoints/m.bin" sampleReg).reg
      "d1").map (·.content_type) = some (some envHeadFail.get.content_type) :=
  claim6_head_failure_nonfatal envHeadFail "d1" "u" "/models/checkpoints/m.bin" sampleReg
    (sampleRecAt 0 0 0) 2097152 rfl rfl rfl rfl rfl rfl


/-- Claim C7: when the destination path already exists at preparation
time, the download proceeds under the disambiguated filename (current
time inserted into the basename before the extension): the record's
`path` and `filename` are updated to the new values — which differ from
the original basename and path — during preparation, hence before any
bytes are written; the destination file, when streaming opens it at all,
is opened at the new path. -/
theorem claim7_conflict_rename (env : Env) (download_id url full_path : String)
    (reg : Registry) (hm : env.mkdir_fails = false)
    (hex : env.file_exists full_path = true) :
    _prepare_download_path env download_id full_path reg =
      (some (renamed_path full_path env.t_prep),
        regUpdate reg download_id (fun d =>
          { d with path := renamed_path full_path env.t_prep,
                   filename := timestamped_name full_path env.t_prep })) ∧
    timestamped_name full_path env.t_prep ≠ os_basename full_path ∧
    renamed_path full_path env.t_prep ≠ full_path ∧
    (regFind (_prepare_download_path env download_id full_path reg).2 download_id).map
      (·.filename)
      = (regFind reg download_id).map (fun _ => timestamped_name full_path env.t_prep) ∧
    (regFind (_prepare_download_path env download_id full_path reg).2 download_id).map
      (·.path)
      = (regFind reg download_id).map (fun _ => renamed_path full_path env.t_prep) ∧
    (download_file env download_id url full_path reg).written_path
      = (if env.get.status = 200 then some (renamed_path full_path env.t_prep) else none) := by
  have hp := prep_conflict env download_id full_path reg hm hex
  refine ⟨hp, timestamped_name_ne_basename full_path env.t_prep,
    renamed_path_ne full_path env.t_prep, ?_, ?_, ?_⟩
  · rw [hp]
    dsimp only
    rw [regFind_regUpdate_self]
    cases regFind reg download_id <;> rfl
  · rw [hp]
    dsimp only
    rw [regFind_regUpdate_self]
    cases regFind reg download_id <;> rfl
  · rw [download_file_eq_of_prep env download_id url full_path
      (renamed_path full_path env.t_prep) reg _ hp]
    by_cases hs : env.get.status = 200
    · rw [if_pos hs, _download_with_progress, if_neg (by simp [hs])]
    · rw [if_neg hs, _download_with_progress, if_pos hs]

/-- Witness for C7 on a concrete occupied destination. -/
theorem claim7_conflict_rename_witness :
    _prepare_download_path envConflict "d1" "/models/checkpoints/m.bin" sampleReg =
      (some (renamed_path "/models/checkpoints/m.bin" envConflict.t_prep),
        regUpdate sampleReg "d1" (fun d =>
          { d with path := renamed_path "/models/checkpoints/m.bin" envConflict.t_prep,
                   filename := timestamped_name "/models/checkpoints/m.bin"
                     envConflict.t_prep })) ∧
    timestamped_name "/models/checkpoints/m.bin" envConflict.t_prep
      ≠ os_basename "/models/checkpoints/m.bin" ∧
    renamed_path "/models/checkpoints/m.bin" envConflict.t_prep
      ≠ "/models/checkpoints/m.bin" ∧
    (regFind (_prepare_download_path envConflict "d1" "/models/checkpoints/m.bin"
        sampleReg).2 "d1").map (·.filename)
      = (regFind sampleReg "d1").map
          (fun _ => timestamped_name "/models/checkpoints/m.bin" envConflict.t_prep) ∧
    (regFind (_prepare_download_path envConflict "d1" "/models/checkpoints/m.bin"
        sampleReg).2 "d1").map (·.path)
      = (regFind sampleReg "d1").map
          (fun _ => renamed_path "/models/checkpoints/m.bin" envConflict.t_prep) ∧
    (download_file envConflict "d1" "u" "/models/checkpoints/m.bin" sampleReg).written_path
      = (if envConflict.get.status = 200
          then some (renamed_path "/models/checkpoints/m.bin" envConflict.t_prep)
          else none) :=
  claim7_conflict_rename envConflict "d1" "u" "/models/checkpoints/m.bin" sampleReg rfl rfl

/-- Claim C8: along the chunk loop, successive registry observations of a
record have non-decreasing `downloadedBytes`, and — whenever `totalSize`
is known (positive) — non-decreasing `percent` as well. -/
theorem claim8_monotone (download_id : String) (ts : Nat) (ck : Nat → Nat) (st : Nat) :
    ∀ (chunks : List Nat) (dl i : Nat) (reg : Registry) (d : DownloadData),
      regFind reg download_id = some d → d.downloaded = dl → d.total_size = ts →
      (0 < ts → d.percent = dl * 100 / ts) →
      List.Chain' (progressMono download_id)
        ((dl, reg) :: streamTrace download_id ts ck st chunks dl i reg) := by
  intro chunks
  induction chunks with
  | nil =>
    intro dl i reg d hd hdl hts hpct
    simp [streamTrace]
  | cons c rest ih =>
    intro dl i reg d hd hdl hts hpct
    by_cases hc : c = 0
    · subst hc
      simp [streamTrace]
    · rw [streamTrace]
      simp only [hc, if_false, ite_false]
      rw [List.chain'_cons]
      constructor
      · intro d1 hd1 d2 hd2
        rw [hd, Option.mem_some_iff] at hd1
        subst hd1
        rw [_update_download_progress, regFind_regUpdate_self, hd,
          Option.map_some', Option.mem_some_iff] at hd2
        subst hd2
        constructor
        · rw [hdl, progressedRecord_downloaded]
          omega
        · intro hpos
          rw [hts] at hpos
          rw [progressedRecord_percent_pos _ _ _ _ _ hpos, hpct hpos]
          exact Nat.div_le_div_right (Nat.mul_le_mul_right _ (by omega))
      · have hfind : regFind (_update_download_progress download_id (dl + c) ts (ck i) st reg)
            download_id = some (progressedRecord (dl + c) ts (ck i) st d) := by
          rw [_update_download_progress, regFind_regUpdate_self, hd]
          rfl
        have htot : (progressedRecord (dl + c) ts (ck i) st d).total_size = ts := by
          rw [progressedRecord_total_size]
          exact hts
        exact ih (dl + c) (i + 1) _ (progressedRecord (dl + c) ts (ck i) st d)
          hfind (progressedRecord_downloaded _ _ _ _ _) htot
          (fun hpos => progressedRecord_percent_pos _ _ _ _ _ hpos)

/-- Witness for C8 on a concrete two-chunk stream. -/
theorem claim8_monotone_witness :
    List.Chain' (progressMono "d1")
      ((0, sampleReg2) :: streamTrace "d1" 2 (fun _ => 501) 500 [1, 1] 0 0 sampleReg2) :=
  claim8_monotone "d1" 2 (fun _ => 501) 500 [1, 1] 0 0 sampleReg2 (sampleRecAt 2 0 0)
    rfl rfl rfl (fun _ => rfl)

/-- Claim C9: the spec's concrete scenario — intake of url
"http://x/model.bin", folder "checkpoints", filename "m.bin", the
server declaring `content-length: 2097152`, and the body arriving as two
1 MiB chunks: after chunk 1 the record shows 1048576 bytes and
`percent = 50`; at the end the record is `completed` with `percent = 100`
and `downloadedBytes = 2097152`. -/
theorem claim9_concrete_scenario :
    c9intake.response = .queued "checkpoints_m.bin_500" "queued"
      "Download has been queued and will start automatically" ∧
    c9intake.task = some ("checkpoints_m.bin_500", "http://x/model.bin",
      "/models/checkpoints/m.bin") ∧
    ((streamTrace "checkpoints_m.bin_500" 2097152 envOK.clock envOK.stream_start
        [1048576, 1048576] 0 0
        (_fetch_content_length envOK.head "checkpoints_m.bin_500" c9intake.reg)).head?).map
      (fun pr => (pr.1, (regFind pr.2 "checkpoints_m.bin_500").map
        (fun d => (d.downloaded, d.percent))))
      = some (1048576, some (1048576, 50)) ∧
    (regFind (download_file envOK "checkpoints_m.bin_500" "http://x/model.bin"
        "/models/checkpoints/m.bin" c9intake.reg).reg "checkpoints_m.bin_500").map
      (fun d => (d.status, d.percent, d.downloaded))
      = some (.completed, 100, 2097152) := by
  decide

end ModelDownloader
